import Mathlib

/-!
Verification of the cascading-risk propagation core of the urban-resilience
dashboard.  The repository ships the visualization layer
(`CascadingFailureViz.js`), which calls into a `CascadingFailureModel`
module (`analyzeCascade`, `getAffectedSystems`, `generateDescription`,
`systemGraph`); that module is not part of the source snapshot, so the
analyzer is modelled from the specification (spec.md §2–§4, §8–§9) as a
frontier-based breadth-first traversal with an explicit finalized set.
The functions that do appear in the source (`getSeverityColor`,
`updateCascadeFromScenario`, the `initialMetrics` constant) are embedded
directly from `CascadingFailureViz.js`.
-/

set_option linter.unusedVariables false

/-- Identifier of one system node of the dependency graph
(spec.md §3 SystemNode, `CascadingFailureViz.js` lines 133–138). -/
inductive SystemId
  | environmental
  | health
  | agriculture
  | economy
  deriving DecidableEq, Repr

open SystemId

/-- Directed dependency edge carrying a propagation weight (fraction of
upstream severity transmitted) and a delay in hours (spec.md §3 Edge). -/
structure GraphEdge where
  src : SystemId
  dst : SystemId
  weight : ℚ
  delay : ℚ
  deriving DecidableEq, Repr

/-- Modelled from the spec: the default SystemGraph edge table of spec.md
§4.1 (the `CascadingFailureModel.js` module holding it is missing from the
snapshot; only its callers are present). -/
def systemGraphEdges : List GraphEdge :=
  [⟨environmental, health, 6/10, 6⟩,
   ⟨environmental, agriculture, 45/100, 12⟩,
   ⟨health, economy, 4/10, 24⟩,
   ⟨agriculture, economy, 5/10, 48⟩]

/-- The node identifiers of the default graph, in declaration order
(`CascadingFailureViz.js` lines 133–138). -/
def allSystems : List SystemId :=
  [environmental, health, agriculture, economy]

/-- Externally observed metric names accepted as cascade triggers
(spec.md §3 MetricsSnapshot, §4.2). -/
inductive Metric
  | aqi
  | temperature
  | hospital_load
  | crop_supply
  deriving DecidableEq, Repr

/-- Modelled from the spec: the fixed metric-to-origin-node table of
spec.md §4.2 (`aqi` → environmental, `hospital_load` → health,
`crop_supply` → agriculture); `temperature` has no entry. -/
def metricToNode : Metric → Option SystemId
  | Metric.aqi => some environmental
  | Metric.temperature => none
  | Metric.hospital_load => some health
  | Metric.crop_supply => some agriculture

/-- Modelled from the spec: origin-node resolution with the deterministic
fallback-to-default policy of spec.md §4.2 / §7 (unknown metric falls back
to the environmental origin rather than failing). -/
def mappedOrigin (metric : Metric) : SystemId :=
  (metricToNode metric).getD environmental

/-- Modelled from the spec: the safe reference value per metric, against
which the trigger deviation is measured (spec.md §4.2; the exact constants
are tunable configuration per §4.1). -/
def safeReference : Metric → ℚ
  | Metric.aqi => 50
  | Metric.temperature => 25
  | Metric.hospital_load => 50
  | Metric.crop_supply => 100

/-- Modelled from the spec: the normalization scale per metric used to map
a deviation onto the unit interval (tunable configuration, spec.md §4.1). -/
def deviationScale : Metric → ℚ
  | Metric.aqi => 250
  | Metric.temperature => 25
  | Metric.hospital_load => 100
  | Metric.crop_supply => 100

/-- Modelled from the spec: origin severity is a monotone normalized
function of how far the trigger value deviates from the safe reference,
clipped to the unit interval (spec.md §4.2). -/
def originSeverity (metric : Metric) (value : ℚ) : ℚ :=
  min 1 (|value - safeReference metric| / deviationScale metric)

/-- Modelled from the spec: the negligible-propagation floor threshold
(spec.md §4.2: a downstream severity below 0.05 is neither emitted nor
propagated further). -/
def floorThreshold : ℚ := 5/100

/-- Severity band shared between the narrative generator and the
visualization color coding (spec.md §4.2, §9). -/
inductive SeverityBand
  | minor
  | moderate
  | severe
  deriving DecidableEq, Repr

/-- Modelled from the spec: band classification with the 0.33 / 0.66
thresholds, using the strict-lower-bound comparisons observed in the
source's `getSeverityColor` (`CascadingFailureViz.js` lines 342–346). -/
def severityBand (s : ℚ) : SeverityBand :=
  if s < 33/100 then SeverityBand.minor
  else if s < 66/100 then SeverityBand.moderate
  else SeverityBand.severe

/-- Display name of a system node. -/
def systemName : SystemId → String
  | environmental => "environmental"
  | health => "health"
  | agriculture => "agriculture"
  | economy => "economy"

/-- Narrative phrase per severity band (spec.md §4.2 narrative templates). -/
def bandPhrase : SeverityBand → String
  | SeverityBand.minor => "minor disruption"
  | SeverityBand.moderate => "moderate strain"
  | SeverityBand.severe => "severe crisis"

/-- Modelled from the spec: per-stage description generated
deterministically from the node identifier and the severity band
(spec.md §4.2). -/
def stageDescription (n : SystemId) (s : ℚ) : String :=
  systemName n ++ ": " ++ bandPhrase (severityBand s)

/-- One emitted propagation event (spec.md §3 CascadeStage). -/
structure CascadeStage where
  stage : ℕ
  system : SystemId
  description : String
  severity : ℚ
  timestamp : ℚ
  deriving DecidableEq, Repr

/-- One candidate contribution travelling along an edge of the frontier:
target node, candidate severity and candidate arrival time. -/
structure Contribution where
  node : SystemId
  severity : ℚ
  time : ℚ
  deriving DecidableEq, Repr

/-- Contributions of the current frontier aimed at one node. -/
def contributionsFor (frontier : List Contribution) (n : SystemId) :
    List Contribution :=
  frontier.filter (fun c => decide (c.node = n))

/-- Strongest incoming severity of a contribution group (spec.md §4.2:
the finalized stage uses the maximum severity among the paths reaching
the node). -/
def combinedSeverity : List Contribution → ℚ
  | [] => 0
  | c :: cs => cs.foldl (fun a d => max a d.severity) c.severity

/-- Earliest arrival time of a contribution group (spec.md §4.2: the
finalized stage uses the minimum time among the paths reaching the node). -/
def combinedTime : List Contribution → ℚ
  | [] => 0
  | c :: cs => cs.foldl (fun a d => min a d.time) c.time

/-- Downstream contributions generated by expanding one finalized node:
every outgoing edge transmits severity attenuated by the edge weight and
arrival time shifted by the edge delay (spec.md §4.2). -/
def expandNode (edges : List GraphEdge) (n : SystemId) (s t : ℚ) :
    List Contribution :=
  (edges.filter (fun e => decide (e.src = n))).map
    (fun e => ⟨e.dst, s * e.weight, t + e.delay⟩)

/-- Stage record constructor: description derived from node and severity. -/
def mkStage (i : ℕ) (n : SystemId) (s t : ℚ) : CascadeStage :=
  ⟨i, n, stageDescription n s, s, t⟩

/-- Nodes reached by the current frontier that are not yet finalized,
in the fixed declaration order of the graph (spec.md §9: frontier-based
traversal keyed by node identifier with an explicit finalized set). -/
def levelReached (finalized : List SystemId) (frontier : List Contribution) :
    List SystemId :=
  allSystems.filter
    (fun n => decide (n ∉ finalized ∧ ∃ c ∈ frontier, c.node = n))

/-- Reached nodes of the level paired with their combined severity and
combined arrival time. -/
def levelResolved (finalized : List SystemId) (frontier : List Contribution) :
    List (SystemId × ℚ × ℚ) :=
  (levelReached finalized frontier).map
    (fun n => (n, combinedSeverity (contributionsFor frontier n),
               combinedTime (contributionsFor frontier n)))

/-- Resolved nodes that survive the negligible-propagation floor; the
origin level (stage index 0) is always emitted (spec.md §4.2). -/
def levelEmitted (finalized : List SystemId) (frontier : List Contribution)
    (i : ℕ) : List (SystemId × ℚ × ℚ) :=
  (levelResolved finalized frontier).filter
    (fun r => decide (i = 0 ∨ floorThreshold ≤ r.2.1))

/-- Stage records emitted at one traversal level. -/
def levelStages (finalized : List SystemId) (frontier : List Contribution)
    (i : ℕ) : List CascadeStage :=
  (levelEmitted finalized frontier i).map
    (fun r => mkStage i r.1 r.2.1 r.2.2)

/-- Frontier for the next level: only emitted (non-negligible) nodes are
expanded outward (spec.md §4.2 floor cutoff). -/
def levelNext (edges : List GraphEdge) (finalized : List SystemId)
    (frontier : List Contribution) (i : ℕ) : List Contribution :=
  (levelEmitted finalized frontier i).flatMap
    (fun r => expandNode edges r.1 r.2.1 r.2.2)

/-- Modelled from the spec: the breadth-first cascade traversal of
spec.md §4.2 / §9.  Fuel bounds the number of levels; each level finalizes
every reached, not-yet-finalized node at its combined severity and time,
emits the non-negligible ones and expands only those. -/
def runCascade (edges : List GraphEdge) :
    ℕ → List SystemId → List Contribution → ℕ → List CascadeStage
  | 0, _, _, _ => []
  | fuel + 1, finalized, frontier, i =>
      levelStages finalized frontier i ++
        runCascade edges fuel (finalized ++ levelReached finalized frontier)
          (levelNext edges finalized frontier i) (i + 1)

/-- Baseline metric values supplied by the caller (spec.md §3
MetricsSnapshot). -/
structure MetricsSnapshot where
  aqi : ℚ
  temperature : ℚ
  hospital_load : ℚ
  crop_supply : ℚ
  deriving DecidableEq, Repr

/-- Modelled from the spec: the cascade analyzer over an explicit edge
list (spec.md §4.2).  The traversal is bounded by the node count, so the
fuel is the length of `allSystems`. -/
def analyzeCascadeWith (edges : List GraphEdge) (baseline : MetricsSnapshot)
    (metric : Metric) (value : ℚ) : List CascadeStage :=
  runCascade edges allSystems.length []
    [⟨mappedOrigin metric, originSeverity metric value, 0⟩] 0

/-- Modelled from the spec: `analyzeCascade` over the default system graph
(spec.md §4.2). -/
def analyzeCascade (baseline : MetricsSnapshot) (metric : Metric)
    (value : ℚ) : List CascadeStage :=
  analyzeCascadeWith systemGraphEdges baseline metric value

/-- The constant baseline snapshot used by the visualization
(`CascadingFailureViz.js` lines 69–74 and 102–107). -/
def initialMetrics : MetricsSnapshot :=
  ⟨150, 25, 50, 70⟩

/-- Aggregated impact of one node across a stage sequence (spec.md §3
AffectedSystemSummary). -/
structure AffectedSystemSummary where
  system : SystemId
  maxSeverity : ℚ
  deriving DecidableEq, Repr

/-- Accumulate a node identifier, keeping only its first appearance. -/
def addFirst (acc : List SystemId) (n : SystemId) : List SystemId :=
  if n ∈ acc then acc else acc ++ [n]

/-- Distinct node identifiers of a stage sequence in order of first
appearance (spec.md §4.3). -/
def firstAppearanceSystems (stages : List CascadeStage) : List SystemId :=
  stages.foldl (fun acc st => addFirst acc st.system) []

/-- Severities recorded for one node across a stage sequence. -/
def severitiesFor (n : SystemId) (stages : List CascadeStage) : List ℚ :=
  (stages.filter (fun st => decide (st.system = n))).map
    (fun st => st.severity)

/-- Maximum severity recorded for one node across a stage sequence
(spec.md §4.3). -/
def maxSevFor (n : SystemId) (stages : List CascadeStage) : ℚ :=
  match severitiesFor n stages with
  | [] => 0
  | q :: qs => qs.foldl max q

/-- Modelled from the spec: `getAffectedSystems` (spec.md §4.3) — one
summary per distinct node appearing in the stages, ordered by first
appearance, carrying the maximum severity across that node's stages. -/
def getAffectedSystems (stages : List CascadeStage) :
    List AffectedSystemSummary :=
  (firstAppearanceSystems stages).map (fun n => ⟨n, maxSevFor n stages⟩)

/-- Modelled from the spec: `generateDescription` (spec.md §4.4) — a
deterministic sentence naming the worst-hit node, its severity band and
the total propagation span; the empty sequence yields a neutral default
(spec.md §7). -/
def generateDescription (stages : List CascadeStage) : String :=
  match stages with
  | [] => "No cascade effects detected."
  | st :: rest =>
      let worst := rest.foldl (fun a b => if a.severity < b.severity then b else a) st
      let span := rest.foldl (fun a b => max a b.timestamp) st.timestamp
      "The failure propagates for " ++ toString span ++
        " hours; the strongest impact is " ++ systemName worst.system ++
        " at " ++ bandPhrase (severityBand worst.severity) ++ "."

/-- Severity color of the visualization, embedded from
`CascadingFailureViz.js` lines 342–346. -/
def getSeverityColor (severity : ℚ) : String :=
  if severity < 33/100 then "#10b981"
  else if severity < 66/100 then "#f59e0b"
  else "#ef4444"

/-- Color assigned to each severity band; the refinement map relating the
visualization palette to the narrative bands. -/
def colorOfBand : SeverityBand → String
  | SeverityBand.minor => "#10b981"
  | SeverityBand.moderate => "#f59e0b"
  | SeverityBand.severe => "#ef4444"

/-- Risk record of a policy scenario side, as consumed by
`updateCascadeFromScenario` (`CascadingFailureViz.js` lines 80–111). -/
structure RiskInfo where
  probability : ℚ
  deriving DecidableEq, Repr

/-- One side (baseline or intervention) of a scenario-updated event;
each risk entry may be absent, matching the optional-chaining accesses of
the source. -/
structure ScenarioRisks where
  environmental_risk : Option RiskInfo
  health_risk : Option RiskInfo
  food_security_risk : Option RiskInfo
  deriving DecidableEq, Repr

/-- Payload of a scenario-updated event (`CascadingFailureViz.js` line 80):
the intervention may be absent, in which case the handler returns early. -/
structure Scenario where
  baseline : ScenarioRisks
  intervention : Option ScenarioRisks
  deriving DecidableEq, Repr

/-- JavaScript comparison `a?.probability > b?.probability`: false whenever
either side is undefined. -/
def jsProbGt (a b : Option RiskInfo) : Bool :=
  match a, b with
  | some x, some y => decide (y.probability < x.probability)
  | _, _ => false

/-- The metric-selection chain of `updateCascadeFromScenario`
(`CascadingFailureViz.js` lines 87–100): a fixed if/else-if priority chain
(environmental, then health, then food) with default `aqi` / 150. -/
def selectMetricValue (baseline intervention : ScenarioRisks) : Metric × ℚ :=
  if jsProbGt intervention.environmental_risk baseline.environmental_risk then
    (Metric.aqi,
      200 + (intervention.environmental_risk.map RiskInfo.probability).getD 0 * 3)
  else if jsProbGt intervention.health_risk baseline.health_risk then
    (Metric.hospital_load,
      (intervention.health_risk.map RiskInfo.probability).getD 0)
  else if jsProbGt intervention.food_security_risk baseline.food_security_risk then
    (Metric.crop_supply,
      100 - (intervention.food_security_risk.map RiskInfo.probability).getD 0)
  else (Metric.aqi, 150)

/-- `updateCascadeFromScenario` (`CascadingFailureViz.js` lines 80–111):
returns the new cascade, or none when the scenario carries no
intervention; the analyzer is always invoked with the constant
`initialMetrics` snapshot. -/
def updateCascadeFromScenario (scenario : Scenario) :
    Option (List CascadeStage) :=
  match scenario.intervention with
  | none => none
  | some intervention =>
      some (analyzeCascade initialMetrics
        (selectMetricValue scenario.baseline intervention).1
        (selectMetricValue scenario.baseline intervention).2)

/-- A sequence of analyzer calls; the analyzer keeps no state between
calls (spec.md §5), so a call sequence is a plain map. -/
def runCalls (calls : List (MetricsSnapshot × Metric × ℚ)) :
    List (List CascadeStage) :=
  calls.map (fun c => analyzeCascade c.1 c.2.1 c.2.2)

/-! ## Unfolding lemmas for the traversal -/

lemma runCascade_zero (e : List GraphEdge) (fin : List SystemId)
    (fr : List Contribution) (i : ℕ) : runCascade e 0 fin fr i = [] := rfl

lemma runCascade_succ (e : List GraphEdge) (fuel : ℕ) (fin : List SystemId)
    (fr : List Contribution) (i : ℕ) :
    runCascade e (fuel + 1) fin fr i =
      levelStages fin fr i ++
        runCascade e fuel (fin ++ levelReached fin fr)
          (levelNext e fin fr i) (i + 1) := rfl

lemma runCascade_four (e : List GraphEdge) (fin : List SystemId)
    (fr : List Contribution) (i : ℕ) :
    runCascade e 4 fin fr i =
      levelStages fin fr i ++
        runCascade e 3 (fin ++ levelReached fin fr)
          (levelNext e fin fr i) (i + 1) := rfl

/-! ## Generic structural lemmas -/

lemma allSystems_nodup : allSystems.Nodup := by decide

lemma runCascade_nil_frontier (e : List GraphEdge) :
    ∀ (fuel : ℕ) (fin : List SystemId) (i : ℕ),
      runCascade e fuel fin [] i = [] := by
  intro fuel
  induction fuel with
  | zero => intro fin i; rfl
  | succ fuel ih =>
      intro fin i
      have hr : levelReached fin [] = [] := by
        simp [levelReached]
      have hs : levelStages fin [] i = [] := by
        simp [levelStages, levelEmitted, levelResolved, hr]
      have hn : levelNext e fin [] i = [] := by
        simp [levelNext, levelEmitted, levelResolved, hr]
      rw [runCascade_succ, hs, hn, ih]
      rfl

lemma mem_levelReached {fin : List SystemId} {fr : List Contribution}
    {n : SystemId} (h : n ∈ levelReached fin fr) : n ∉ fin := by
  have := (List.mem_filter.mp h).2
  exact (of_decide_eq_true this).1

lemma levelReached_nodup (fin : List SystemId) (fr : List Contribution) :
    (levelReached fin fr).Nodup :=
  allSystems_nodup.filter _

lemma levelStages_systems (fin : List SystemId) (fr : List Contribution)
    (i : ℕ) :
    ((levelStages fin fr i).map (fun st => st.system)).Sublist
      (levelReached fin fr) := by
  have h1 : (levelStages fin fr i).map (fun st => st.system) =
      (levelEmitted fin fr i).map (fun r => r.1) := by
    simp [levelStages, mkStage, List.map_map, Function.comp]
  have h2 : (levelEmitted fin fr i).map (fun r => r.1) |>.Sublist
      ((levelResolved fin fr).map (fun r => r.1)) :=
    (List.filter_sublist _).map _
  have h3 : (levelResolved fin fr).map (fun r => r.1) = levelReached fin fr := by
    unfold levelResolved
    rw [List.map_map]
    exact List.map_id _
  rw [h1]
  rw [h3] at h2
  exact h2

lemma mem_levelStages {fin : List SystemId} {fr : List Contribution} {i : ℕ}
    {st : CascadeStage} (h : st ∈ levelStages fin fr i) :
    st.stage = i ∧ (i = 0 ∨ floorThreshold ≤ st.severity) := by
  simp only [levelStages, List.mem_map] at h
  obtain ⟨r, hr, hst⟩ := h
  have hfilter := (List.mem_filter.mp hr).2
  have hprop := of_decide_eq_true hfilter
  subst hst
  exact ⟨rfl, hprop⟩

lemma runCascade_systems_nodup (e : List GraphEdge) :
    ∀ (fuel : ℕ) (fin : List SystemId) (fr : List Contribution) (i : ℕ),
      ((runCascade e fuel fin fr i).map (fun st => st.system)).Nodup ∧
      ∀ st ∈ runCascade e fuel fin fr i, st.system ∉ fin := by
  intro fuel
  induction fuel with
  | zero => intro fin fr i; simp [runCascade_zero]
  | succ fuel ih =>
      intro fin fr i
      obtain ⟨ihn, ihf⟩ :=
        ih (fin ++ levelReached fin fr) (levelNext e fin fr i) (i + 1)
      have hsub := levelStages_systems fin fr i
      constructor
      · rw [runCascade_succ, List.map_append, List.nodup_append]
        refine ⟨hsub.nodup (levelReached_nodup fin fr), ihn, ?_⟩
        intro x hx hx2
        have hxreach : x ∈ levelReached fin fr := hsub.subset hx
        obtain ⟨st, hst, hsys⟩ := List.mem_map.mp hx2
        have := ihf st hst
        rw [hsys] at this
        exact this (List.mem_append.mpr (Or.inr hxreach))
      · intro st hst
        rw [runCascade_succ] at hst
        rcases List.mem_append.mp hst with hmem | hmem
        · have hxreach : st.system ∈ levelReached fin fr :=
            hsub.subset (List.mem_map_of_mem _ hmem)
          exact mem_levelReached hxreach
        · intro hfin
          exact ihf st hmem (List.mem_append.mpr (Or.inl hfin))

lemma runCascade_floor (e : List GraphEdge) :
    ∀ (fuel : ℕ) (fin : List SystemId) (fr : List Contribution) (i : ℕ),
      ∀ st ∈ runCascade e fuel fin fr i,
        st.stage ≠ 0 → floorThreshold ≤ st.severity := by
  intro fuel
  induction fuel with
  | zero => intro fin fr i; simp [runCascade_zero]
  | succ fuel ih =>
      intro fin fr i st hst hstage
      rw [runCascade_succ] at hst
      rcases List.mem_append.mp hst with hmem | hmem
      · obtain ⟨hi, hcond⟩ := mem_levelStages hmem
        rcases hcond with h0 | hfl
        · exact absurd (hi.trans h0) hstage
        · exact hfl
      · exact ih _ _ _ st hmem hstage

lemma levelStages_origin (o : SystemId) (s : ℚ) :
    levelStages [] [⟨o, s, 0⟩] 0 = [mkStage 0 o s 0] := by
  cases o <;> rfl

lemma runCascade_one (e : List GraphEdge) (fin : List SystemId)
    (fr : List Contribution) (i : ℕ) :
    runCascade e 1 fin fr i =
      levelStages fin fr i ++
        runCascade e 0 (fin ++ levelReached fin fr)
          (levelNext e fin fr i) (i + 1) := rfl

lemma runCascade_two (e : List GraphEdge) (fin : List SystemId)
    (fr : List Contribution) (i : ℕ) :
    runCascade e 2 fin fr i =
      levelStages fin fr i ++
        runCascade e 1 (fin ++ levelReached fin fr)
          (levelNext e fin fr i) (i + 1) := rfl

lemma runCascade_three (e : List GraphEdge) (fin : List SystemId)
    (fr : List Contribution) (i : ℕ) :
    runCascade e 3 fin fr i =
      levelStages fin fr i ++
        runCascade e 2 (fin ++ levelReached fin fr)
          (levelNext e fin fr i) (i + 1) := rfl

/-! ## Closed forms of the traversal per origin node -/

lemma env_step0 (s : ℚ) :
    runCascade systemGraphEdges 4 [] [⟨environmental, s, 0⟩] 0 =
      mkStage 0 environmental s 0 ::
        runCascade systemGraphEdges 3 [environmental]
          [⟨health, s * (6/10), 0 + 6⟩,
           ⟨agriculture, s * (45/100), 0 + 12⟩] 1 := rfl

lemma env_step1_both (s : ℚ) (h1 : floorThreshold ≤ s * (6/10))
    (h2 : floorThreshold ≤ s * (45/100)) :
    runCascade systemGraphEdges 3 [environmental]
        [⟨health, s * (6/10), 0 + 6⟩, ⟨agriculture, s * (45/100), 0 + 12⟩] 1 =
      mkStage 1 health (s * (6/10)) (0 + 6) ::
        mkStage 1 agriculture (s * (45/100)) (0 + 12) ::
          runCascade systemGraphEdges 2 [environmental, health, agriculture]
            [⟨economy, s * (6/10) * (4/10), 0 + 6 + 24⟩,
             ⟨economy, s * (45/100) * (5/10), 0 + 12 + 48⟩] 2 := by
  have hrs : levelResolved [environmental]
      [⟨health, s * (6/10), 0 + 6⟩, ⟨agriculture, s * (45/100), 0 + 12⟩] =
      [(health, s * (6/10), 0 + 6), (agriculture, s * (45/100), 0 + 12)] := rfl
  have hem : levelEmitted [environmental]
      [⟨health, s * (6/10), 0 + 6⟩, ⟨agriculture, s * (45/100), 0 + 12⟩] 1 =
      [(health, s * (6/10), 0 + 6), (agriculture, s * (45/100), 0 + 12)] := by
    rw [levelEmitted, hrs, List.filter_cons_of_pos (by simp [h1]),
      List.filter_cons_of_pos (by simp [h2]), List.filter_nil]
  have hst : levelStages [environmental]
      [⟨health, s * (6/10), 0 + 6⟩, ⟨agriculture, s * (45/100), 0 + 12⟩] 1 =
      [mkStage 1 health (s * (6/10)) (0 + 6),
       mkStage 1 agriculture (s * (45/100)) (0 + 12)] := by
    rw [levelStages, hem]; rfl
  have hnx : levelNext systemGraphEdges [environmental]
      [⟨health, s * (6/10), 0 + 6⟩, ⟨agriculture, s * (45/100), 0 + 12⟩] 1 =
      [⟨economy, s * (6/10) * (4/10), 0 + 6 + 24⟩,
       ⟨economy, s * (45/100) * (5/10), 0 + 12 + 48⟩] := by
    rw [levelNext, hem]; rfl
  rw [runCascade_three, hst, hnx]
  rfl

lemma env_step1_healthOnly (s : ℚ) (h1 : floorThreshold ≤ s * (6/10))
    (h2 : ¬ floorThreshold ≤ s * (45/100)) :
    runCascade systemGraphEdges 3 [environmental]
        [⟨health, s * (6/10), 0 + 6⟩, ⟨agriculture, s * (45/100), 0 + 12⟩] 1 =
      mkStage 1 health (s * (6/10)) (0 + 6) ::
        runCascade systemGraphEdges 2 [environmental, health, agriculture]
          [⟨economy, s * (6/10) * (4/10), 0 + 6 + 24⟩] 2 := by
  have hrs : levelResolved [environmental]
      [⟨health, s * (6/10), 0 + 6⟩, ⟨agriculture, s * (45/100), 0 + 12⟩] =
      [(health, s * (6/10), 0 + 6), (agriculture, s * (45/100), 0 + 12)] := rfl
  have hem : levelEmitted [environmental]
      [⟨health, s * (6/10), 0 + 6⟩, ⟨agriculture, s * (45/100), 0 + 12⟩] 1 =
      [(health, s * (6/10), 0 + 6)] := by
    rw [levelEmitted, hrs, List.filter_cons_of_pos (by simp [h1]),
      List.filter_cons_of_neg (by simp [h2]), List.filter_nil]
  have hst : levelStages [environmental]
      [⟨health, s * (6/10), 0 + 6⟩, ⟨agriculture, s * (45/100), 0 + 12⟩] 1 =
      [mkStage 1 health (s * (6/10)) (0 + 6)] := by
    rw [levelStages, hem]; rfl
  have hnx : levelNext systemGraphEdges [environmental]
      [⟨health, s * (6/10), 0 + 6⟩, ⟨agriculture, s * (45/100), 0 + 12⟩] 1 =
      [⟨economy, s * (6/10) * (4/10), 0 + 6 + 24⟩] := by
    rw [levelNext, hem]; rfl
  rw [runCascade_three, hst, hnx]
  rfl

lemma env_step1_none (s : ℚ) (h1 : ¬ floorThreshold ≤ s * (6/10))
    (h2 : ¬ floorThreshold ≤ s * (45/100)) :
    runCascade systemGraphEdges 3 [environmental]
        [⟨health, s * (6/10), 0 + 6⟩, ⟨agriculture, s * (45/100), 0 + 12⟩] 1 =
      [] := by
  have hrs : levelResolved [environmental]
      [⟨health, s * (6/10), 0 + 6⟩, ⟨agriculture, s * (45/100), 0 + 12⟩] =
      [(health, s * (6/10), 0 + 6), (agriculture, s * (45/100), 0 + 12)] := rfl
  have hem : levelEmitted [environmental]
      [⟨health, s * (6/10), 0 + 6⟩, ⟨agriculture, s * (45/100), 0 + 12⟩] 1 =
      [] := by
    rw [levelEmitted, hrs, List.filter_cons_of_neg (by simp [h1]),
      List.filter_cons_of_neg (by simp [h2]), List.filter_nil]
  have hst : levelStages [environmental]
      [⟨health, s * (6/10), 0 + 6⟩, ⟨agriculture, s * (45/100), 0 + 12⟩] 1 =
      [] := by
    rw [levelStages, hem]; rfl
  have hnx : levelNext systemGraphEdges [environmental]
      [⟨health, s * (6/10), 0 + 6⟩, ⟨agriculture, s * (45/100), 0 + 12⟩] 1 =
      [] := by
    rw [levelNext, hem]; rfl
  rw [runCascade_three, hst, hnx, runCascade_nil_frontier]
  rfl

lemma env_step2_both_pos (s : ℚ)
    (h3 : floorThreshold ≤ max (s * (6/10) * (4/10)) (s * (45/100) * (5/10))) :
    runCascade systemGraphEdges 2 [environmental, health, agriculture]
        [⟨economy, s * (6/10) * (4/10), 0 + 6 + 24⟩,
         ⟨economy, s * (45/100) * (5/10), 0 + 12 + 48⟩] 2 =
      [mkStage 2 economy (max (s * (6/10) * (4/10)) (s * (45/100) * (5/10)))
        (min (0 + 6 + 24 : ℚ) (0 + 12 + 48))] := by
  have hrs : levelResolved [environmental, health, agriculture]
      [⟨economy, s * (6/10) * (4/10), 0 + 6 + 24⟩,
       ⟨economy, s * (45/100) * (5/10), 0 + 12 + 48⟩] =
      [(economy, max (s * (6/10) * (4/10)) (s * (45/100) * (5/10)),
        min (0 + 6 + 24 : ℚ) (0 + 12 + 48))] := rfl
  have hem : levelEmitted [environmental, health, agriculture]
      [⟨economy, s * (6/10) * (4/10), 0 + 6 + 24⟩,
       ⟨economy, s * (45/100) * (5/10), 0 + 12 + 48⟩] 2 =
      [(economy, max (s * (6/10) * (4/10)) (s * (45/100) * (5/10)),
        min (0 + 6 + 24 : ℚ) (0 + 12 + 48))] := by
    rw [levelEmitted, hrs, List.filter_cons_of_pos (by simp [h3]), List.filter_nil]
  have hst : levelStages [environmental, health, agriculture]
      [⟨economy, s * (6/10) * (4/10), 0 + 6 + 24⟩,
       ⟨economy, s * (45/100) * (5/10), 0 + 12 + 48⟩] 2 =
      [mkStage 2 economy (max (s * (6/10) * (4/10)) (s * (45/100) * (5/10)))
        (min (0 + 6 + 24 : ℚ) (0 + 12 + 48))] := by
    rw [levelStages, hem]; rfl
  have hnx : levelNext systemGraphEdges [environmental, health, agriculture]
      [⟨economy, s * (6/10) * (4/10), 0 + 6 + 24⟩,
       ⟨economy, s * (45/100) * (5/10), 0 + 12 + 48⟩] 2 =
      [] := by
    rw [levelNext, hem]; rfl
  rw [runCascade_two, hst, hnx, runCascade_nil_frontier]
  rfl

lemma env_step2_both_neg (s : ℚ)
    (h3 : ¬ floorThreshold ≤ max (s * (6/10) * (4/10)) (s * (45/100) * (5/10))) :
    runCascade systemGraphEdges 2 [environmental, health, agriculture]
        [⟨economy, s * (6/10) * (4/10), 0 + 6 + 24⟩,
         ⟨economy, s * (45/100) * (5/10), 0 + 12 + 48⟩] 2 = [] := by
  have hrs : levelResolved [environmental, health, agriculture]
      [⟨economy, s * (6/10) * (4/10), 0 + 6 + 24⟩,
       ⟨economy, s * (45/100) * (5/10), 0 + 12 + 48⟩] =
      [(economy, max (s * (6/10) * (4/10)) (s * (45/100) * (5/10)),
        min (0 + 6 + 24 : ℚ) (0 + 12 + 48))] := rfl
  have hem : levelEmitted [environmental, health, agriculture]
      [⟨economy, s * (6/10) * (4/10), 0 + 6 + 24⟩,
       ⟨economy, s * (45/100) * (5/10), 0 + 12 + 48⟩] 2 = [] := by
    rw [levelEmitted, hrs, List.filter_cons_of_neg (by simp [h3]), List.filter_nil]
  have hst : levelStages [environmental, health, agriculture]
      [⟨economy, s * (6/10) * (4/10), 0 + 6 + 24⟩,
       ⟨economy, s * (45/100) * (5/10), 0 + 12 + 48⟩] 2 = [] := by
    rw [levelStages, hem]; rfl
  have hnx : levelNext systemGraphEdges [environmental, health, agriculture]
      [⟨economy, s * (6/10) * (4/10), 0 + 6 + 24⟩,
       ⟨economy, s * (45/100) * (5/10), 0 + 12 + 48⟩] 2 = [] := by
    rw [levelNext, hem]; rfl
  rw [runCascade_two, hst, hnx, runCascade_nil_frontier]
  rfl

lemma env_step2_single_pos (s : ℚ)
    (h4 : floorThreshold ≤ s * (6/10) * (4/10)) :
    runCascade systemGraphEdges 2 [environmental, health, agriculture]
        [⟨economy, s * (6/10) * (4/10), 0 + 6 + 24⟩] 2 =
      [mkStage 2 economy (s * (6/10) * (4/10)) (0 + 6 + 24)] := by
  have hrs : levelResolved [environmental, health, agriculture]
      [⟨economy, s * (6/10) * (4/10), 0 + 6 + 24⟩] =
      [(economy, s * (6/10) * (4/10), 0 + 6 + 24)] := rfl
  have hem : levelEmitted [environmental, health, agriculture]
      [⟨economy, s * (6/10) * (4/10), 0 + 6 + 24⟩] 2 =
      [(economy, s * (6/10) * (4/10), 0 + 6 + 24)] := by
    rw [levelEmitted, hrs, List.filter_cons_of_pos (by simp [h4]), List.filter_nil]
  have hst : levelStages [environmental, health, agriculture]
      [⟨economy, s * (6/10) * (4/10), 0 + 6 + 24⟩] 2 =
      [mkStage 2 economy (s * (6/10) * (4/10)) (0 + 6 + 24)] := by
    rw [levelStages, hem]; rfl
  have hnx : levelNext systemGraphEdges [environmental, health, agriculture]
      [⟨economy, s * (6/10) * (4/10), 0 + 6 + 24⟩] 2 = [] := by
    rw [levelNext, hem]; rfl
  rw [runCascade_two, hst, hnx, runCascade_nil_frontier]
  rfl

lemma env_step2_single_neg (s : ℚ)
    (h4 : ¬ floorThreshold ≤ s * (6/10) * (4/10)) :
    runCascade systemGraphEdges 2 [environmental, health, agriculture]
        [⟨economy, s * (6/10) * (4/10), 0 + 6 + 24⟩] 2 = [] := by
  have hrs : levelResolved [environmental, health, agriculture]
      [⟨economy, s * (6/10) * (4/10), 0 + 6 + 24⟩] =
      [(economy, s * (6/10) * (4/10), 0 + 6 + 24)] := rfl
  have hem : levelEmitted [environmental, health, agriculture]
      [⟨economy, s * (6/10) * (4/10), 0 + 6 + 24⟩] 2 = [] := by
    rw [levelEmitted, hrs, List.filter_cons_of_neg (by simp [h4]), List.filter_nil]
  have hst : levelStages [environmental, health, agriculture]
      [⟨economy, s * (6/10) * (4/10), 0 + 6 + 24⟩] 2 = [] := by
    rw [levelStages, hem]; rfl
  have hnx : levelNext systemGraphEdges [environmental, health, agriculture]
      [⟨economy, s * (6/10) * (4/10), 0 + 6 + 24⟩] 2 = [] := by
    rw [levelNext, hem]; rfl
  rw [runCascade_two, hst, hnx, runCascade_nil_frontier]
  rfl

lemma cascade_from_env (s : ℚ) (hs : 0 ≤ s) :
    runCascade systemGraphEdges 4 [] [⟨environmental, s, 0⟩] 0 =
      mkStage 0 environmental s 0 ::
        (if floorThreshold ≤ s * (6/10) then
          mkStage 1 health (s * (6/10)) 6 ::
            (if floorThreshold ≤ s * (45/100) then
              mkStage 1 agriculture (s * (45/100)) 12 ::
                (if floorThreshold ≤
                    max (s * (6/10) * (4/10)) (s * (45/100) * (5/10)) then
                  [mkStage 2 economy
                    (max (s * (6/10) * (4/10)) (s * (45/100) * (5/10))) 30]
                 else [])
             else
              (if floorThreshold ≤ s * (6/10) * (4/10) then
                [mkStage 2 economy (s * (6/10) * (4/10)) 30]
               else []))
         else []) := by
  rw [env_step0]
  by_cases h1 : floorThreshold ≤ s * (6/10)
  · rw [if_pos h1]
    by_cases h2 : floorThreshold ≤ s * (45/100)
    · rw [if_pos h2, env_step1_both s h1 h2]
      by_cases h3 : floorThreshold ≤
          max (s * (6/10) * (4/10)) (s * (45/100) * (5/10))
      · rw [if_pos h3, env_step2_both_pos s h3]
        norm_num [min_def]
      · rw [if_neg h3, env_step2_both_neg s h3]
        norm_num
    · rw [if_neg h2, env_step1_healthOnly s h1 h2]
      by_cases h4 : floorThreshold ≤ s * (6/10) * (4/10)
      · rw [if_pos h4, env_step2_single_pos s h4]
        norm_num
      · rw [if_neg h4, env_step2_single_neg s h4]
        norm_num
  · have h2 : ¬ floorThreshold ≤ s * (45/100) := by
      intro hc
      exact h1 (hc.trans (by nlinarith))
    rw [if_neg h1, env_step1_none s h1 h2]

lemma health_step0 (s : ℚ) :
    runCascade systemGraphEdges 4 [] [⟨health, s, 0⟩] 0 =
      mkStage 0 health s 0 ::
        runCascade systemGraphEdges 3 [health]
          [⟨economy, s * (4/10), 0 + 24⟩] 1 := rfl

lemma cascade_from_health (s : ℚ) :
    runCascade systemGraphEdges 4 [] [⟨health, s, 0⟩] 0 =
      mkStage 0 health s 0 ::
        (if floorThreshold ≤ s * (4/10) then
          [mkStage 1 economy (s * (4/10)) 24]
         else []) := by
  rw [health_step0]
  have hrs : levelResolved [health] [⟨economy, s * (4/10), 0 + 24⟩] =
      [(economy, s * (4/10), 0 + 24)] := rfl
  by_cases h : floorThreshold ≤ s * (4/10)
  · rw [if_pos h]
    have hem : levelEmitted [health] [⟨economy, s * (4/10), 0 + 24⟩] 1 =
        [(economy, s * (4/10), 0 + 24)] := by
      rw [levelEmitted, hrs, List.filter_cons_of_pos (by simp [h]),
        List.filter_nil]
    have hst : levelStages [health] [⟨economy, s * (4/10), 0 + 24⟩] 1 =
        [mkStage 1 economy (s * (4/10)) (0 + 24)] := by
      rw [levelStages, hem]; rfl
    have hnx : levelNext systemGraphEdges [health]
        [⟨economy, s * (4/10), 0 + 24⟩] 1 = [] := by
      rw [levelNext, hem]; rfl
    rw [runCascade_three, hst, hnx, runCascade_nil_frontier]
    norm_num
  · rw [if_neg h]
    have hem : levelEmitted [health] [⟨economy, s * (4/10), 0 + 24⟩] 1 =
        [] := by
      rw [levelEmitted, hrs, List.filter_cons_of_neg (by simp [h]),
        List.filter_nil]
    have hst : levelStages [health] [⟨economy, s * (4/10), 0 + 24⟩] 1 =
        [] := by
      rw [levelStages, hem]; rfl
    have hnx : levelNext systemGraphEdges [health]
        [⟨economy, s * (4/10), 0 + 24⟩] 1 = [] := by
      rw [levelNext, hem]; rfl
    rw [runCascade_three, hst, hnx, runCascade_nil_frontier]
    rfl

lemma agri_step0 (s : ℚ) :
    runCascade systemGraphEdges 4 [] [⟨agriculture, s, 0⟩] 0 =
      mkStage 0 agriculture s 0 ::
        runCascade systemGraphEdges 3 [agriculture]
          [⟨economy, s * (5/10), 0 + 48⟩] 1 := rfl

lemma cascade_from_agri (s : ℚ) :
    runCascade systemGraphEdges 4 [] [⟨agriculture, s, 0⟩] 0 =
      mkStage 0 agriculture s 0 ::
        (if floorThreshold ≤ s * (5/10) then
          [mkStage 1 economy (s * (5/10)) 48]
         else []) := by
  rw [agri_step0]
  have hrs : levelResolved [agriculture] [⟨economy, s * (5/10), 0 + 48⟩] =
      [(economy, s * (5/10), 0 + 48)] := rfl
  by_cases h : floorThreshold ≤ s * (5/10)
  · rw [if_pos h]
    have hem : levelEmitted [agriculture] [⟨economy, s * (5/10), 0 + 48⟩] 1 =
        [(economy, s * (5/10), 0 + 48)] := by
      rw [levelEmitted, hrs, List.filter_cons_of_pos (by simp [h]),
        List.filter_nil]
    have hst : levelStages [agriculture] [⟨economy, s * (5/10), 0 + 48⟩] 1 =
        [mkStage 1 economy (s * (5/10)) (0 + 48)] := by
      rw [levelStages, hem]; rfl
    have hnx : levelNext systemGraphEdges [agriculture]
        [⟨economy, s * (5/10), 0 + 48⟩] 1 = [] := by
      rw [levelNext, hem]; rfl
    rw [runCascade_three, hst, hnx, runCascade_nil_frontier]
    norm_num
  · rw [if_neg h]
    have hem : levelEmitted [agriculture] [⟨economy, s * (5/10), 0 + 48⟩] 1 =
        [] := by
      rw [levelEmitted, hrs, List.filter_cons_of_neg (by simp [h]),
        List.filter_nil]
    have hst : levelStages [agriculture] [⟨economy, s * (5/10), 0 + 48⟩] 1 =
        [] := by
      rw [levelStages, hem]; rfl
    have hnx : levelNext systemGraphEdges [agriculture]
        [⟨economy, s * (5/10), 0 + 48⟩] 1 = [] := by
      rw [levelNext, hem]; rfl
    rw [runCascade_three, hst, hnx, runCascade_nil_frontier]
    rfl

lemma originSeverity_nonneg (m : Metric) (v : ℚ) :
    0 ≤ originSeverity m v := by
  have hpos : (0 : ℚ) < deviationScale m := by
    cases m <;> norm_num [deviationScale]
  exact le_min (by norm_num) (div_nonneg (abs_nonneg _) hpos.le)

lemma originSeverity_mono (m : Metric) (v1 v2 : ℚ)
    (h : |v2 - safeReference m| ≤ |v1 - safeReference m|) :
    originSeverity m v2 ≤ originSeverity m v1 := by
  have hpos : (0 : ℚ) < deviationScale m := by
    cases m <;> norm_num [deviationScale]
  exact min_le_min le_rfl ((div_le_div_iff_of_pos_right hpos).mpr h)

/-! ## Concrete cascades -/

lemma originSeverity_aqi_150 : originSeverity Metric.aqi 150 = 2/5 := by
  rw [originSeverity, show safeReference Metric.aqi = 50 from rfl,
    show deviationScale Metric.aqi = 250 from rfl,
    show |(150 : ℚ) - 50| = 100 by norm_num [abs_of_nonneg]]
  norm_num [min_def]

lemma originSeverity_aqi_75 : originSeverity Metric.aqi 75 = 1/10 := by
  rw [originSeverity, show safeReference Metric.aqi = 50 from rfl,
    show deviationScale Metric.aqi = 250 from rfl,
    show |(75 : ℚ) - 50| = 25 by norm_num [abs_of_nonneg]]
  norm_num [min_def]

/-- The default cascade of the visualization: trigger `aqi = 150` against
the constant baseline (spec.md §8 concrete scenario). -/
lemma cascade_aqi_150 :
    analyzeCascade initialMetrics Metric.aqi 150 =
      [mkStage 0 environmental (2/5) 0,
       mkStage 1 health (6/25) 6,
       mkStage 1 agriculture (9/50) 12,
       mkStage 2 economy (12/125) 30] := by
  have hc : analyzeCascade initialMetrics Metric.aqi 150 =
      runCascade systemGraphEdges 4 []
        [⟨environmental, originSeverity Metric.aqi 150, 0⟩] 0 := rfl
  rw [hc, originSeverity_aqi_150, cascade_from_env (2/5) (by norm_num)]
  rw [if_pos (by norm_num [floorThreshold]),
    if_pos (by norm_num [floorThreshold]),
    if_pos (by norm_num [floorThreshold, le_max_iff]),
    show max ((2 : ℚ)/5 * (6/10) * (4/10)) ((2 : ℚ)/5 * (45/100) * (5/10)) =
      12/125 from by rw [max_eq_left (by norm_num)]; norm_num]
  norm_num

lemma cascade_aqi_75 (b : MetricsSnapshot) :
    analyzeCascade b Metric.aqi 75 =
      [mkStage 0 environmental (1/10) 0, mkStage 1 health (3/50) 6] := by
  have hc : analyzeCascade b Metric.aqi 75 =
      runCascade systemGraphEdges 4 []
        [⟨environmental, originSeverity Metric.aqi 75, 0⟩] 0 := rfl
  rw [hc, originSeverity_aqi_75, cascade_from_env (1/10) (by norm_num)]
  rw [if_pos (by norm_num [floorThreshold]),
    if_neg (by norm_num [floorThreshold]),
    if_neg (by norm_num [floorThreshold])]
  norm_num

/-- The default graph with the outgoing edge of `agriculture` removed;
used to check that a node cut off by the negligible-propagation floor is
never expanded (its outgoing edges are never traversed). -/
def prunedAgricultureEdges : List GraphEdge :=
  [⟨environmental, health, 6/10, 6⟩,
   ⟨environmental, agriculture, 45/100, 12⟩,
   ⟨health, economy, 4/10, 24⟩]

lemma pruned_step0 (s : ℚ) :
    runCascade prunedAgricultureEdges 4 [] [⟨environmental, s, 0⟩] 0 =
      mkStage 0 environmental s 0 ::
        runCascade prunedAgricultureEdges 3 [environmental]
          [⟨health, s * (6/10), 0 + 6⟩,
           ⟨agriculture, s * (45/100), 0 + 12⟩] 1 := rfl

lemma pruned_aqi_75 (b : MetricsSnapshot) :
    analyzeCascadeWith prunedAgricultureEdges b Metric.aqi 75 =
      [mkStage 0 environmental (1/10) 0, mkStage 1 health (3/50) 6] := by
  have hc : analyzeCascadeWith prunedAgricultureEdges b Metric.aqi 75 =
      runCascade prunedAgricultureEdges 4 []
        [⟨environmental, originSeverity Metric.aqi 75, 0⟩] 0 := rfl
  rw [hc, originSeverity_aqi_75, pruned_step0]
  have hrs : levelResolved [environmental]
      [⟨health, (1 : ℚ)/10 * (6/10), 0 + 6⟩,
       ⟨agriculture, (1 : ℚ)/10 * (45/100), 0 + 12⟩] =
      [(health, (1 : ℚ)/10 * (6/10), 0 + 6),
       (agriculture, (1 : ℚ)/10 * (45/100), 0 + 12)] := rfl
  have hem : levelEmitted [environmental]
      [⟨health, (1 : ℚ)/10 * (6/10), 0 + 6⟩,
       ⟨agriculture, (1 : ℚ)/10 * (45/100), 0 + 12⟩] 1 =
      [(health, (1 : ℚ)/10 * (6/10), 0 + 6)] := by
    rw [levelEmitted, hrs,
      List.filter_cons_of_pos (by simp [floorThreshold]; norm_num),
      List.filter_cons_of_neg (by simp [floorThreshold]; norm_num),
      List.filter_nil]
  have hst : levelStages [environmental]
      [⟨health, (1 : ℚ)/10 * (6/10), 0 + 6⟩,
       ⟨agriculture, (1 : ℚ)/10 * (45/100), 0 + 12⟩] 1 =
      [mkStage 1 health ((1 : ℚ)/10 * (6/10)) (0 + 6)] := by
    rw [levelStages, hem]; rfl
  have hnx : levelNext prunedAgricultureEdges [environmental]
      [⟨health, (1 : ℚ)/10 * (6/10), 0 + 6⟩,
       ⟨agriculture, (1 : ℚ)/10 * (45/100), 0 + 12⟩] 1 =
      [⟨economy, (1 : ℚ)/10 * (6/10) * (4/10), 0 + 6 + 24⟩] := by
    rw [levelNext, hem]; rfl
  have hrs2 : levelResolved [environmental, health, agriculture]
      [⟨economy, (1 : ℚ)/10 * (6/10) * (4/10), 0 + 6 + 24⟩] =
      [(economy, (1 : ℚ)/10 * (6/10) * (4/10), 0 + 6 + 24)] := rfl
  have hem2 : levelEmitted [environmental, health, agriculture]
      [⟨economy, (1 : ℚ)/10 * (6/10) * (4/10), 0 + 6 + 24⟩] 2 = [] := by
    rw [levelEmitted, hrs2,
      List.filter_cons_of_neg (by simp [floorThreshold]; norm_num),
      List.filter_nil]
  have hst2 : levelStages [environmental, health, agriculture]
      [⟨economy, (1 : ℚ)/10 * (6/10) * (4/10), 0 + 6 + 24⟩] 2 = [] := by
    rw [levelStages, hem2]; rfl
  have hnx2 : levelNext prunedAgricultureEdges
      [environmental, health, agriculture]
      [⟨economy, (1 : ℚ)/10 * (6/10) * (4/10), 0 + 6 + 24⟩] 2 = [] := by
    rw [levelNext, hem2]; rfl
  have hlvl1 : runCascade prunedAgricultureEdges 3 [environmental]
      [⟨health, (1 : ℚ)/10 * (6/10), 0 + 6⟩,
       ⟨agriculture, (1 : ℚ)/10 * (45/100), 0 + 12⟩] 1 =
      mkStage 1 health ((1 : ℚ)/10 * (6/10)) (0 + 6) ::
        runCascade prunedAgricultureEdges 2
          [environmental, health, agriculture]
          [⟨economy, (1 : ℚ)/10 * (6/10) * (4/10), 0 + 6 + 24⟩] 2 := by
    rw [runCascade_three, hst, hnx]; rfl
  have hlvl2 : runCascade prunedAgricultureEdges 2
      [environmental, health, agriculture]
      [⟨economy, (1 : ℚ)/10 * (6/10) * (4/10), 0 + 6 + 24⟩] 2 = [] := by
    rw [runCascade_two, hst2, hnx2, runCascade_nil_frontier]; rfl
  rw [hlvl1, hlvl2]
  norm_num

/-! ## Characterization and monotonicity helpers -/

lemma env_econ_char (s : ℚ) (hs : 0 ≤ s) :
    ∀ st ∈ runCascade systemGraphEdges 4 [] [⟨environmental, s, 0⟩] 0,
      st.system = economy →
        st.severity = max (s * (6/10) * (4/10)) (s * (45/100) * (5/10)) ∧
        st.timestamp = min ((6 : ℚ) + 24) (12 + 48) := by
  rw [cascade_from_env s hs]
  intro st hst hsys
  split_ifs at hst with h1 h2 h3 h4
  all_goals
    simp only [List.mem_cons, List.mem_singleton, List.not_mem_nil,
      or_false] at hst
  · rcases hst with rfl | rfl | rfl | rfl
    · simp [mkStage, stageDescription] at hsys
    · simp [mkStage, stageDescription] at hsys
    · simp [mkStage, stageDescription] at hsys
    · refine ⟨rfl, ?_⟩
      show (30 : ℚ) = min ((6 : ℚ) + 24) (12 + 48)
      norm_num [min_def]
  · rcases hst with rfl | rfl | rfl
    · simp [mkStage, stageDescription] at hsys
    · simp [mkStage, stageDescription] at hsys
    · simp [mkStage, stageDescription] at hsys
  · rcases hst with rfl | rfl | rfl
    · simp [mkStage, stageDescription] at hsys
    · simp [mkStage, stageDescription] at hsys
    · constructor
      · show s * (6/10) * (4/10) =
          max (s * (6/10) * (4/10)) (s * (45/100) * (5/10))
        rw [max_eq_left (by nlinarith)]
      · show (30 : ℚ) = min ((6 : ℚ) + 24) (12 + 48)
        norm_num [min_def]
  · rcases hst with rfl | rfl
    · simp [mkStage, stageDescription] at hsys
    · simp [mkStage, stageDescription] at hsys
  · rcases hst with rfl
    simp [mkStage, stageDescription] at hsys

lemma env_mono (s1 s2 : ℚ) (h0 : 0 ≤ s2) (hs : s2 ≤ s1) :
    ∀ st2 ∈ runCascade systemGraphEdges 4 [] [⟨environmental, s2, 0⟩] 0,
      ∃ st1 ∈ runCascade systemGraphEdges 4 [] [⟨environmental, s1, 0⟩] 0,
        st1.system = st2.system ∧ st2.severity ≤ st1.severity := by
  have h01 : 0 ≤ s1 := h0.trans hs
  rw [cascade_from_env s2 h0, cascade_from_env s1 h01]
  intro st2 hst2
  have m6 : s2 * (6/10) ≤ s1 * (6/10) := by nlinarith
  have m45 : s2 * (45/100) ≤ s1 * (45/100) := by nlinarith
  have m24 : s2 * (6/10) * (4/10) ≤ s1 * (6/10) * (4/10) := by nlinarith
  have m225 : s2 * (45/100) * (5/10) ≤ s1 * (45/100) * (5/10) := by nlinarith
  by_cases g1 : floorThreshold ≤ s2 * (6/10)
  · have g1' : floorThreshold ≤ s1 * (6/10) := g1.trans m6
    rw [if_pos g1] at hst2
    rw [if_pos g1']
    by_cases g2 : floorThreshold ≤ s2 * (45/100)
    · have g2' : floorThreshold ≤ s1 * (45/100) := g2.trans m45
      rw [if_pos g2] at hst2
      rw [if_pos g2']
      by_cases g3 : floorThreshold ≤
          max (s2 * (6/10) * (4/10)) (s2 * (45/100) * (5/10))
      · have hmax : max (s2 * (6/10) * (4/10)) (s2 * (45/100) * (5/10)) ≤
            max (s1 * (6/10) * (4/10)) (s1 * (45/100) * (5/10)) :=
          max_le_max m24 m225
        have g3' := g3.trans hmax
        rw [if_pos g3] at hst2
        rw [if_pos g3']
        simp only [List.mem_cons, List.mem_singleton, List.not_mem_nil,
          or_false] at hst2
        rcases hst2 with rfl | rfl | rfl | rfl
        · exact ⟨mkStage 0 environmental s1 0, List.mem_cons_self _ _,
            rfl, hs⟩
        · exact ⟨mkStage 1 health (s1 * (6/10)) 6,
            List.mem_cons_of_mem _ (List.mem_cons_self _ _), rfl, m6⟩
        · exact ⟨mkStage 1 agriculture (s1 * (45/100)) 12,
            List.mem_cons_of_mem _ (List.mem_cons_of_mem _
              (List.mem_cons_self _ _)), rfl, m45⟩
        · exact ⟨mkStage 2 economy
            (max (s1 * (6/10) * (4/10)) (s1 * (45/100) * (5/10))) 30,
            List.mem_cons_of_mem _ (List.mem_cons_of_mem _
              (List.mem_cons_of_mem _ (List.mem_cons_self _ _))),
            rfl, hmax⟩
      · rw [if_neg g3] at hst2
        simp only [List.mem_cons, List.mem_singleton, List.not_mem_nil,
          or_false] at hst2
        rcases hst2 with rfl | rfl | rfl
        · exact ⟨mkStage 0 environmental s1 0, List.mem_cons_self _ _,
            rfl, hs⟩
        · exact ⟨mkStage 1 health (s1 * (6/10)) 6,
            List.mem_cons_of_mem _ (List.mem_cons_self _ _), rfl, m6⟩
        · exact ⟨mkStage 1 agriculture (s1 * (45/100)) 12,
            List.mem_cons_of_mem _ (List.mem_cons_of_mem _
              (List.mem_cons_self _ _)), rfl, m45⟩
    · rw [if_neg g2] at hst2
      by_cases g4 : floorThreshold ≤ s2 * (6/10) * (4/10)
      · rw [if_pos g4] at hst2
        simp only [List.mem_cons, List.mem_singleton, List.not_mem_nil,
          or_false] at hst2
        rcases hst2 with rfl | rfl | rfl
        · exact ⟨mkStage 0 environmental s1 0, List.mem_cons_self _ _,
            rfl, hs⟩
        · exact ⟨mkStage 1 health (s1 * (6/10)) 6,
            List.mem_cons_of_mem _ (List.mem_cons_self _ _), rfl, m6⟩
        · by_cases g2' : floorThreshold ≤ s1 * (45/100)
          · rw [if_pos g2']
            have g3' : floorThreshold ≤
                max (s1 * (6/10) * (4/10)) (s1 * (45/100) * (5/10)) :=
              (g4.trans m24).trans (le_max_left _ _)
            rw [if_pos g3']
            exact ⟨mkStage 2 economy
              (max (s1 * (6/10) * (4/10)) (s1 * (45/100) * (5/10))) 30,
              List.mem_cons_of_mem _ (List.mem_cons_of_mem _
                (List.mem_cons_of_mem _ (List.mem_cons_self _ _))),
              rfl, m24.trans (le_max_left _ _)⟩
          · rw [if_neg g2']
            have g4' : floorThreshold ≤ s1 * (6/10) * (4/10) := g4.trans m24
            rw [if_pos g4']
            exact ⟨mkStage 2 economy (s1 * (6/10) * (4/10)) 30,
              List.mem_cons_of_mem _ (List.mem_cons_of_mem _
                (List.mem_cons_self _ _)), rfl, m24⟩
      · rw [if_neg g4] at hst2
        simp only [List.mem_cons, List.mem_singleton, List.not_mem_nil,
          or_false] at hst2
        rcases hst2 with rfl | rfl
        · exact ⟨mkStage 0 environmental s1 0, List.mem_cons_self _ _,
            rfl, hs⟩
        · exact ⟨mkStage 1 health (s1 * (6/10)) 6,
            List.mem_cons_of_mem _ (List.mem_cons_self _ _), rfl, m6⟩
  · rw [if_neg g1] at hst2
    simp only [List.mem_cons, List.not_mem_nil, or_false] at hst2
    subst hst2
    exact ⟨mkStage 0 environmental s1 0, List.mem_cons_self _ _, rfl, hs⟩

lemma health_mono (s1 s2 : ℚ) (h0 : 0 ≤ s2) (hs : s2 ≤ s1) :
    ∀ st2 ∈ runCascade systemGraphEdges 4 [] [⟨health, s2, 0⟩] 0,
      ∃ st1 ∈ runCascade systemGraphEdges 4 [] [⟨health, s1, 0⟩] 0,
        st1.system = st2.system ∧ st2.severity ≤ st1.severity := by
  rw [cascade_from_health s2, cascade_from_health s1]
  intro st2 hst2
  have m4 : s2 * (4/10) ≤ s1 * (4/10) := by nlinarith
  by_cases g : floorThreshold ≤ s2 * (4/10)
  · have g' : floorThreshold ≤ s1 * (4/10) := g.trans m4
    rw [if_pos g] at hst2
    rw [if_pos g']
    simp only [List.mem_cons, List.mem_singleton, List.not_mem_nil,
      or_false] at hst2
    rcases hst2 with rfl | rfl
    · exact ⟨mkStage 0 health s1 0, List.mem_cons_self _ _, rfl, hs⟩
    · exact ⟨mkStage 1 economy (s1 * (4/10)) 24,
        List.mem_cons_of_mem _ (List.mem_cons_self _ _), rfl, m4⟩
  · rw [if_neg g] at hst2
    simp only [List.mem_cons, List.not_mem_nil, or_false] at hst2
    subst hst2
    exact ⟨mkStage 0 health s1 0, List.mem_cons_self _ _, rfl, hs⟩

lemma agri_mono (s1 s2 : ℚ) (h0 : 0 ≤ s2) (hs : s2 ≤ s1) :
    ∀ st2 ∈ runCascade systemGraphEdges 4 [] [⟨agriculture, s2, 0⟩] 0,
      ∃ st1 ∈ runCascade systemGraphEdges 4 [] [⟨agriculture, s1, 0⟩] 0,
        st1.system = st2.system ∧ st2.severity ≤ st1.severity := by
  rw [cascade_from_agri s2, cascade_from_agri s1]
  intro st2 hst2
  have m5 : s2 * (5/10) ≤ s1 * (5/10) := by nlinarith
  by_cases g : floorThreshold ≤ s2 * (5/10)
  · have g' : floorThreshold ≤ s1 * (5/10) := g.trans m5
    rw [if_pos g] at hst2
    rw [if_pos g']
    simp only [List.mem_cons, List.mem_singleton, List.not_mem_nil,
      or_false] at hst2
    rcases hst2 with rfl | rfl
    · exact ⟨mkStage 0 agriculture s1 0, List.mem_cons_self _ _, rfl, hs⟩
    · exact ⟨mkStage 1 economy (s1 * (5/10)) 48,
        List.mem_cons_of_mem _ (List.mem_cons_self _ _), rfl, m5⟩
  · rw [if_neg g] at hst2
    simp only [List.mem_cons, List.not_mem_nil, or_false] at hst2
    subst hst2
    exact ⟨mkStage 0 agriculture s1 0, List.mem_cons_self _ _, rfl, hs⟩

/-! ## Aggregation lemmas -/

lemma mem_addFirst (acc : List SystemId) (x n : SystemId) :
    n ∈ addFirst acc x ↔ n ∈ acc ∨ n = x := by
  unfold addFirst
  split_ifs with hx
  · constructor
    · exact fun h => Or.inl h
    · rintro (h | rfl)
      · exact h
      · exact hx
  · simp [List.mem_append]

lemma nodup_addFirst (acc : List SystemId) (x : SystemId)
    (h : acc.Nodup) : (addFirst acc x).Nodup := by
  unfold addFirst
  split_ifs with hx
  · exact h
  · rw [List.nodup_append]
    refine ⟨h, List.nodup_singleton x, ?_⟩
    intro a ha hax
    rw [List.mem_singleton] at hax
    exact hx (hax ▸ ha)

lemma foldlAddFirst_mem (l : List CascadeStage) :
    ∀ (acc : List SystemId) (n : SystemId),
      n ∈ l.foldl (fun a st => addFirst a st.system) acc ↔
        n ∈ acc ∨ ∃ st ∈ l, st.system = n := by
  induction l with
  | nil => intro acc n; simp
  | cons st l ih =>
      intro acc n
      rw [List.foldl_cons, ih, mem_addFirst]
      constructor
      · rintro ((h | h) | ⟨st', hst', rfl⟩)
        · exact Or.inl h
        · exact Or.inr ⟨st, List.mem_cons_self _ _, h.symm⟩
        · exact Or.inr ⟨st', List.mem_cons_of_mem _ hst', rfl⟩
      · rintro (h | ⟨st', hst', rfl⟩)
        · exact Or.inl (Or.inl h)
        · rcases List.mem_cons.mp hst' with rfl | hmem
          · exact Or.inl (Or.inr rfl)
          · exact Or.inr ⟨st', hmem, rfl⟩

lemma foldlAddFirst_nodup (l : List CascadeStage) :
    ∀ acc : List SystemId, acc.Nodup →
      (l.foldl (fun a st => addFirst a st.system) acc).Nodup := by
  induction l with
  | nil => intro acc h; exact h
  | cons st l ih =>
      intro acc h
      rw [List.foldl_cons]
      exact ih _ (nodup_addFirst acc st.system h)

lemma firstAppearanceSystems_mem (stages : List CascadeStage) (n : SystemId) :
    n ∈ firstAppearanceSystems stages ↔ ∃ st ∈ stages, st.system = n := by
  unfold firstAppearanceSystems
  rw [foldlAddFirst_mem]
  simp

lemma firstAppearanceSystems_nodup (stages : List CascadeStage) :
    (firstAppearanceSystems stages).Nodup :=
  foldlAddFirst_nodup stages [] List.nodup_nil

lemma le_foldl_max (l : List ℚ) : ∀ a : ℚ, a ≤ l.foldl max a := by
  induction l with
  | nil => intro a; exact le_refl a
  | cons b l ih =>
      intro a
      exact le_trans (le_max_left a b) (ih (max a b))

lemma mem_le_foldl_max (l : List ℚ) :
    ∀ (a q : ℚ), q ∈ l → q ≤ l.foldl max a := by
  induction l with
  | nil => intro a q h; exact absurd h (List.not_mem_nil q)
  | cons b l ih =>
      intro a q h
      rcases List.mem_cons.mp h with rfl | hmem
      · exact le_trans (le_max_right a q) (le_foldl_max l (max a q))
      · exact ih (max a b) q hmem

lemma foldl_max_mem (l : List ℚ) :
    ∀ a : ℚ, l.foldl max a = a ∨ l.foldl max a ∈ l := by
  induction l with
  | nil => intro a; exact Or.inl rfl
  | cons b l ih =>
      intro a
      rw [List.foldl_cons]
      rcases ih (max a b) with h | h
      · rcases max_choice a b with hm | hm
        · exact Or.inl (h.trans hm)
        · exact Or.inr (by rw [h, hm]; exact List.mem_cons_self b l)
      · exact Or.inr (List.mem_cons_of_mem b h)

lemma mem_severitiesFor (n : SystemId) (stages : List CascadeStage) (q : ℚ) :
    q ∈ severitiesFor n stages ↔
      ∃ st ∈ stages, st.system = n ∧ st.severity = q := by
  simp [severitiesFor, List.mem_map, List.mem_filter, and_assoc]

lemma le_maxSevFor (n : SystemId) (stages : List CascadeStage) :
    ∀ q ∈ severitiesFor n stages, q ≤ maxSevFor n stages := by
  intro q hq
  rcases hsev : severitiesFor n stages with _ | ⟨x, xs⟩
  · rw [hsev] at hq
    exact absurd hq (List.not_mem_nil q)
  · rw [hsev] at hq
    rw [maxSevFor, hsev]
    rcases List.mem_cons.mp hq with rfl | hmem
    · exact le_foldl_max xs q
    · exact mem_le_foldl_max xs x q hmem

lemma maxSevFor_attained (n : SystemId) (stages : List CascadeStage)
    (h : severitiesFor n stages ≠ []) :
    maxSevFor n stages ∈ severitiesFor n stages := by
  rcases hsev : severitiesFor n stages with _ | ⟨x, xs⟩
  · exact absurd hsev h
  · rw [maxSevFor, hsev]
    show List.foldl max x xs ∈ x :: xs
    rcases foldl_max_mem xs x with h1 | h1
    · rw [h1]
      exact List.mem_cons_self x xs
    · exact List.mem_cons_of_mem x h1

/-! ## Claim theorems -/

/-- C1: in the output of a single call to `analyzeCascade`, every system
node identifier appears as a finalized stage at most once; when the origin
is `environmental` (so that `economy` is reachable via both `health` and
`agriculture` in the default graph), any finalized `economy` stage carries
the maximum severity and the minimum arrival time over the paths reaching
it. -/
theorem C1_unique_finalization (b : MetricsSnapshot) (m : Metric) (v : ℚ) :
    ((analyzeCascade b m v).map (fun st => st.system)).Nodup ∧
    (mappedOrigin m = environmental →
      ∀ st ∈ analyzeCascade b m v, st.system = economy →
        st.severity =
          max (originSeverity m v * (6/10) * (4/10))
            (originSeverity m v * (45/100) * (5/10)) ∧
        st.timestamp = min ((6 : ℚ) + 24) (12 + 48)) := by
  constructor
  · exact (runCascade_systems_nodup systemGraphEdges 4 []
      [⟨mappedOrigin m, originSeverity m v, 0⟩] 0).1
  · intro horigin st hst hsys
    have hs0 := originSeverity_nonneg m v
    cases m with
    | aqi => exact env_econ_char (originSeverity Metric.aqi v) hs0 st hst hsys
    | temperature =>
        exact env_econ_char (originSeverity Metric.temperature v) hs0 st hst hsys
    | hospital_load => simp [mappedOrigin, metricToNode] at horigin
    | crop_supply => simp [mappedOrigin, metricToNode] at horigin

/-- Witness for C1 at the default `aqi = 150` cascade: the stage systems
are pairwise distinct, `economy` is finalized (so, with the nodup part,
exactly once), and its stage carries the max-severity / min-time
combination of the two incoming paths. -/
theorem C1_unique_finalization_witness :
    ((analyzeCascade initialMetrics Metric.aqi 150).map
      (fun st => st.system)).Nodup ∧
    economy ∈ (analyzeCascade initialMetrics Metric.aqi 150).map
      (fun st => st.system) ∧
    (mkStage 2 economy (12/125) 30).severity =
      max (originSeverity Metric.aqi 150 * (6/10) * (4/10))
        (originSeverity Metric.aqi 150 * (45/100) * (5/10)) ∧
    (mkStage 2 economy (12/125) 30).timestamp =
      min ((6 : ℚ) + 24) (12 + 48) := by
  have hmem : mkStage 2 economy (12/125) 30 ∈
      analyzeCascade initialMetrics Metric.aqi 150 := by
    rw [cascade_aqi_150]
    exact List.mem_cons_of_mem _ (List.mem_cons_of_mem _
      (List.mem_cons_of_mem _ (List.mem_cons_self _ _)))
  obtain ⟨h1, h2⟩ :=
    (C1_unique_finalization initialMetrics Metric.aqi 150).2 rfl _ hmem rfl
  exact ⟨(C1_unique_finalization initialMetrics Metric.aqi 150).1,
    List.mem_map_of_mem _ hmem, h1, h2⟩

/-- C2: for every metric with an entry in the metric-to-node table and
every trigger value, `analyzeCascade` returns a non-empty sequence whose
first element is the origin stage: stage index 0, timestamp 0, system
equal to the mapped origin node, severity equal to the origin severity. -/
theorem C2_origin_stage (b : MetricsSnapshot) (m : Metric) (v : ℚ)
    (origin : SystemId) (h : metricToNode m = some origin) :
    analyzeCascade b m v ≠ [] ∧
    (analyzeCascade b m v).head? =
      some (mkStage 0 origin (originSeverity m v) 0) := by
  have ho : mappedOrigin m = origin := by rw [mappedOrigin, h]; rfl
  have hc : analyzeCascade b m v =
      runCascade systemGraphEdges 4 []
        [⟨mappedOrigin m, originSeverity m v, 0⟩] 0 := rfl
  rw [hc, ho, runCascade_four, levelStages_origin]
  exact ⟨by simp, rfl⟩

/-- Witness for C2 at `aqi`, value 150. -/
theorem C2_origin_stage_witness :
    metricToNode Metric.aqi = some environmental ∧
    analyzeCascade initialMetrics Metric.aqi 150 ≠ [] ∧
    (analyzeCascade initialMetrics Metric.aqi 150).head? =
      some (mkStage 0 environmental (originSeverity Metric.aqi 150) 0) :=
  ⟨rfl,
   (C2_origin_stage initialMetrics Metric.aqi 150 environmental rfl).1,
   (C2_origin_stage initialMetrics Metric.aqi 150 environmental rfl).2⟩

/-- C3: every non-origin stage emitted by `analyzeCascade` has severity at
least the negligible-propagation floor; concretely, for trigger `aqi = 75`
the `agriculture` node (computed severity 0.045 < 0.05) is absent from the
output, and removing agriculture's outgoing edge from the graph leaves the
output unchanged — a below-floor node is never expanded. -/
theorem C3_floor_cutoff :
    (∀ (b : MetricsSnapshot) (m : Metric) (v : ℚ),
      ∀ st ∈ analyzeCascade b m v, st.stage ≠ 0 →
        floorThreshold ≤ st.severity) ∧
    (∀ b : MetricsSnapshot,
      analyzeCascade b Metric.aqi 75 =
        [mkStage 0 environmental (1/10) 0, mkStage 1 health (3/50) 6] ∧
      analyzeCascadeWith prunedAgricultureEdges b Metric.aqi 75 =
        analyzeCascade b Metric.aqi 75) := by
  constructor
  · intro b m v st hst hstage
    exact runCascade_floor systemGraphEdges 4 []
      [⟨mappedOrigin m, originSeverity m v, 0⟩] 0 st hst hstage
  · intro b
    refine ⟨cascade_aqi_75 b, ?_⟩
    rw [pruned_aqi_75 b, cascade_aqi_75 b]

/-- Witness for C3: the health stage of the default cascade is a
non-origin stage and its severity clears the floor. -/
theorem C3_floor_cutoff_witness :
    mkStage 1 health (6/25) 6 ∈ analyzeCascade initialMetrics Metric.aqi 150 ∧
    (mkStage 1 health (6/25) 6).stage ≠ 0 ∧
    floorThreshold ≤ (mkStage 1 health (6/25) 6).severity := by
  have hmem : mkStage 1 health (6/25) 6 ∈
      analyzeCascade initialMetrics Metric.aqi 150 := by
    rw [cascade_aqi_150]
    exact List.mem_cons_of_mem _ (List.mem_cons_self _ _)
  refine ⟨hmem, by norm_num [mkStage], ?_⟩
  exact C3_floor_cutoff.1 initialMetrics Metric.aqi 150 _ hmem
    (by norm_num [mkStage])

/-- C4: for a fixed trigger metric, a trigger value deviating from the
safe reference at least as much as another yields an origin severity that
is not smaller, and every node finalized in the smaller-deviation cascade
is finalized in the larger-deviation cascade with severity not smaller. -/
theorem C4_deviation_monotone (b : MetricsSnapshot) (m : Metric)
    (v1 v2 : ℚ)
    (h : |v2 - safeReference m| ≤ |v1 - safeReference m|) :
    originSeverity m v2 ≤ originSeverity m v1 ∧
    ∀ st2 ∈ analyzeCascade b m v2, ∃ st1 ∈ analyzeCascade b m v1,
      st1.system = st2.system ∧ st2.severity ≤ st1.severity := by
  have hmono := originSeverity_mono m v1 v2 h
  refine ⟨hmono, ?_⟩
  have h0 := originSeverity_nonneg m v2
  cases m with
  | aqi => exact env_mono _ _ h0 hmono
  | temperature => exact env_mono _ _ h0 hmono
  | hospital_load => exact health_mono _ _ h0 hmono
  | crop_supply => exact agri_mono _ _ h0 hmono

/-- Witness for C4 with trigger values 150 (larger deviation) and 75. -/
theorem C4_deviation_monotone_witness :
    |(75 : ℚ) - safeReference Metric.aqi| ≤
      |(150 : ℚ) - safeReference Metric.aqi| ∧
    originSeverity Metric.aqi 75 ≤ originSeverity Metric.aqi 150 ∧
    ∃ st1 ∈ analyzeCascade initialMetrics Metric.aqi 150,
      st1.system = (mkStage 1 health (3/50) 6).system ∧
      (mkStage 1 health (3/50) 6).severity ≤ st1.severity := by
  have hdev : |(75 : ℚ) - safeReference Metric.aqi| ≤
      |(150 : ℚ) - safeReference Metric.aqi| := by
    norm_num [safeReference, abs_of_nonneg]
  have hmem : mkStage 1 health (3/50) 6 ∈
      analyzeCascade initialMetrics Metric.aqi 75 := by
    rw [cascade_aqi_75]
    exact List.mem_cons_of_mem _ (List.mem_cons_self _ _)
  exact ⟨hdev,
    (C4_deviation_monotone initialMetrics Metric.aqi 150 75 hdev).1,
    (C4_deviation_monotone initialMetrics Metric.aqi 150 75 hdev).2 _ hmem⟩

/-- C5: `analyzeCascade` is deterministic and stateless: in any sequence
of calls, each call's result is a function of its own arguments alone
(unaffected by surrounding calls), and two calls with identical arguments
produce identical output. -/
theorem C5_deterministic_stateless :
    (∀ (pre post : List (MetricsSnapshot × Metric × ℚ))
        (b : MetricsSnapshot) (m : Metric) (v : ℚ),
      runCalls (pre ++ (b, m, v) :: post) =
        runCalls pre ++ analyzeCascade b m v :: runCalls post) ∧
    (∀ (b : MetricsSnapshot) (m : Metric) (v : ℚ),
      runCalls [(b, m, v), (b, m, v)] =
        [analyzeCascade b m v, analyzeCascade b m v]) := by
  constructor
  · intro pre post b m v
    simp [runCalls]
  · intro b m v
    simp [runCalls]

/-- C6: `getAffectedSystems` returns exactly one summary per distinct node
identifier appearing in the stages (no duplicates, membership coincides
with the nodes of the stage sequence), each summary's `maxSeverity` is
attained by one of that node's stages and bounds them all, and the default
`aqi`-triggered cascade yields exactly the 4 summaries environmental,
health, agriculture, economy in order of first appearance. -/
theorem C6_affected_systems :
    (∀ stages : List CascadeStage,
      ((getAffectedSystems stages).map (fun sm => sm.system)).Nodup ∧
      (∀ n : SystemId,
        n ∈ (getAffectedSystems stages).map (fun sm => sm.system) ↔
          ∃ st ∈ stages, st.system = n) ∧
      ∀ sm ∈ getAffectedSystems stages,
        (∃ st ∈ stages, st.system = sm.system ∧
          st.severity = sm.maxSeverity) ∧
        (∀ st ∈ stages, st.system = sm.system →
          st.severity ≤ sm.maxSeverity)) ∧
    getAffectedSystems (analyzeCascade initialMetrics Metric.aqi 150) =
      [⟨environmental, 2/5⟩, ⟨health, 6/25⟩, ⟨agriculture, 9/50⟩,
       ⟨economy, 12/125⟩] := by
  constructor
  · intro stages
    have hmap : (getAffectedSystems stages).map (fun sm => sm.system) =
        firstAppearanceSystems stages := by
      unfold getAffectedSystems
      rw [List.map_map]
      exact List.map_id _
    refine ⟨?_, ?_, ?_⟩
    · rw [hmap]
      exact firstAppearanceSystems_nodup stages
    · intro n
      rw [hmap]
      exact firstAppearanceSystems_mem stages n
    · intro sm hsm
      obtain ⟨n, hn, rfl⟩ := List.mem_map.mp hsm
      constructor
      · have hne : severitiesFor n stages ≠ [] := by
          rw [firstAppearanceSystems_mem] at hn
          obtain ⟨st, hst, hsys⟩ := hn
          intro hempty
          have hq : st.severity ∈ severitiesFor n stages :=
            (mem_severitiesFor n stages st.severity).mpr ⟨st, hst, hsys, rfl⟩
          rw [hempty] at hq
          exact absurd hq (List.not_mem_nil _)
        obtain ⟨st, hst, hsys, hsev⟩ :=
          (mem_severitiesFor n stages (maxSevFor n stages)).mp
            (maxSevFor_attained n stages hne)
        exact ⟨st, hst, hsys, hsev⟩
      · intro st hst hsys
        exact le_maxSevFor n stages st.severity
          ((mem_severitiesFor n stages st.severity).mpr ⟨st, hst, hsys, rfl⟩)
  · rw [cascade_aqi_150]
    rfl

/-- Witness for C6: the inner characterization applied to the economy
summary of the default cascade. -/
theorem C6_affected_systems_witness :
    ((getAffectedSystems (analyzeCascade initialMetrics Metric.aqi 150)).map
      (fun sm => sm.system)).Nodup ∧
    (getAffectedSystems (analyzeCascade initialMetrics Metric.aqi 150)).length
      = 4 ∧
    (∃ st ∈ analyzeCascade initialMetrics Metric.aqi 150,
      st.system = economy ∧ st.severity = (12 : ℚ)/125) := by
  refine ⟨(C6_affected_systems.1 _).1, ?_, ?_⟩
  · rw [C6_affected_systems.2]
    rfl
  · have hsm : (⟨economy, (12 : ℚ)/125⟩ : AffectedSystemSummary) ∈
        getAffectedSystems (analyzeCascade initialMetrics Metric.aqi 150) := by
      rw [C6_affected_systems.2]
      exact List.mem_cons_of_mem _ (List.mem_cons_of_mem _
        (List.mem_cons_of_mem _ (List.mem_cons_self _ _)))
    exact ((C6_affected_systems.1 _).2.2 _ hsm).1

/-- C7: on the empty stage sequence, `getAffectedSystems` and
`generateDescription` are total and return well-defined neutral values:
the empty summary sequence and the neutral default description. -/
theorem C7_empty_input_safe :
    getAffectedSystems [] = [] ∧
    generateDescription [] = "No cascade effects detected." :=
  ⟨rfl, rfl⟩

/-- C8 counterexample: severity 0.66 lies inside the claimed moderate
range 0.33–0.66, yet both the band classifier and the source's
`getSeverityColor` (`severity < 0.66` comparison) classify it as severe
(red), refuting the claim that every severity in 0.33–0.66 falls in the
moderate band. -/
theorem C8_band_boundary_cex :
    ((33 : ℚ)/100 ≤ 66/100 ∧ ((66 : ℚ)/100) ≤ 66/100) ∧
    severityBand (66/100) = SeverityBand.severe ∧
    severityBand (66/100) ≠ SeverityBand.moderate ∧
    getSeverityColor (66/100) = "#ef4444" := by
  have hb : severityBand (66/100) = SeverityBand.severe := by
    rw [severityBand, if_neg (by norm_num), if_neg (by norm_num)]
  refine ⟨⟨by norm_num, le_refl _⟩, hb, ?_, ?_⟩
  · rw [hb]
    intro hc
    exact SeverityBand.noConfusion hc
  · rw [getSeverityColor, if_neg (by norm_num), if_neg (by norm_num)]

/-- C8 amended: the narrative band classifier and `getSeverityColor` agree
for every severity, with half-open bands at the shared boundaries 0.33 and
0.66: minor below 0.33, moderate on [0.33, 0.66), severe from 0.66 up. -/
theorem C8_band_boundaries (s : ℚ) :
    getSeverityColor s = colorOfBand (severityBand s) ∧
    (s < 33/100 → severityBand s = SeverityBand.minor) ∧
    (33/100 ≤ s → s < 66/100 → severityBand s = SeverityBand.moderate) ∧
    ((66 : ℚ)/100 ≤ s → severityBand s = SeverityBand.severe) := by
  by_cases h1 : s < 33/100
  · have hb : severityBand s = SeverityBand.minor := by
      rw [severityBand, if_pos h1]
    refine ⟨?_, fun _ => hb, fun ha _ => absurd h1 (not_lt.mpr ha),
      fun ha => absurd h1 (not_lt.mpr (le_trans (by norm_num) ha))⟩
    rw [hb, getSeverityColor, if_pos h1]
    rfl
  · by_cases h2 : s < 66/100
    · have hb : severityBand s = SeverityBand.moderate := by
        rw [severityBand, if_neg h1, if_pos h2]
      refine ⟨?_, fun hc => absurd hc h1, fun _ _ => hb,
        fun ha => absurd h2 (not_lt.mpr ha)⟩
      rw [hb, getSeverityColor, if_neg h1, if_pos h2]
      rfl
    · have hb : severityBand s = SeverityBand.severe := by
        rw [severityBand, if_neg h1, if_neg h2]
      refine ⟨?_, fun hc => absurd hc h1, fun _ hc => absurd hc h2,
        fun _ => hb⟩
      rw [hb, getSeverityColor, if_neg h1, if_neg h2]
      rfl

/-- Witness for the amended C8 at severities 0.5 (moderate) and 0.66
(severe boundary). -/
theorem C8_band_boundaries_witness :
    severityBand (1/2) = SeverityBand.moderate ∧
    severityBand (66/100) = SeverityBand.severe ∧
    getSeverityColor (66/100) = colorOfBand (severityBand (66/100)) :=
  ⟨(C8_band_boundaries (1/2)).2.2.1 (by norm_num) (by norm_num),
   (C8_band_boundaries (66/100)).2.2.2 (le_refl _),
   (C8_band_boundaries (66/100)).1⟩

/-- C9: the metric-selection heuristic of `updateCascadeFromScenario` is a
fixed if/else-if priority chain: whenever the intervention's environmental
risk probability exceeds the baseline's, the chosen trigger metric is
`aqi`, regardless of the health or food deltas. -/
theorem C9_priority_chain (b i : ScenarioRisks)
    (h : jsProbGt i.environmental_risk b.environmental_risk = true) :
    (selectMetricValue b i).1 = Metric.aqi := by
  rw [selectMetricValue, if_pos h]

/-- Witness for C9: environmental delta 0.01, health and food deltas 0.8 —
`aqi` is chosen although the other deltas are far larger. -/
theorem C9_priority_chain_witness :
    jsProbGt (some ⟨51/100⟩) (some ⟨1/2⟩) = true ∧
    (selectMetricValue ⟨some ⟨1/2⟩, some ⟨1/10⟩, some ⟨1/10⟩⟩
      ⟨some ⟨51/100⟩, some ⟨9/10⟩, some ⟨9/10⟩⟩).1 = Metric.aqi ∧
    ((9 : ℚ)/10 - 1/10 > 51/100 - 1/2) := by
  have hgt : jsProbGt (some (⟨51/100⟩ : RiskInfo)) (some ⟨1/2⟩) = true := by
    rw [jsProbGt]
    norm_num
  exact ⟨hgt, C9_priority_chain _ _ hgt, by norm_num⟩

/-- C10: for every scenario-updated event with a non-null intervention,
`updateCascadeFromScenario` calls `analyzeCascade` with the constant
baseline snapshot `initialMetrics` = (aqi 150, temperature 25,
hospital load 50, crop supply 70); the resulting cascade is a function of
the selected trigger metric and derived value alone — two scenarios with
the same selection yield the same cascade. -/
theorem C10_constant_baseline (s : Scenario) (i : ScenarioRisks)
    (h : s.intervention = some i) :
    updateCascadeFromScenario s =
      some (analyzeCascade initialMetrics
        (selectMetricValue s.baseline i).1
        (selectMetricValue s.baseline i).2) ∧
    initialMetrics = ⟨150, 25, 50, 70⟩ ∧
    ∀ (s2 : Scenario) (i2 : ScenarioRisks), s2.intervention = some i2 →
      selectMetricValue s2.baseline i2 = selectMetricValue s.baseline i →
      updateCascadeFromScenario s2 = updateCascadeFromScenario s := by
  refine ⟨?_, rfl, ?_⟩
  · rw [updateCascadeFromScenario, h]
  · intro s2 i2 h2 hsel
    rw [updateCascadeFromScenario, h2, updateCascadeFromScenario, h]
    show some (analyzeCascade initialMetrics
        (selectMetricValue s2.baseline i2).1
        (selectMetricValue s2.baseline i2).2) =
      some (analyzeCascade initialMetrics
        (selectMetricValue s.baseline i).1
        (selectMetricValue s.baseline i).2)
    rw [hsel]

/-- Witness for C10 on a concrete scenario with an intervention present. -/
theorem C10_constant_baseline_witness :
    updateCascadeFromScenario
      ⟨⟨some ⟨1/2⟩, none, none⟩, some ⟨some ⟨3/4⟩, none, none⟩⟩ =
      some (analyzeCascade initialMetrics
        (selectMetricValue ⟨some ⟨1/2⟩, none, none⟩
          ⟨some ⟨3/4⟩, none, none⟩).1
        (selectMetricValue ⟨some ⟨1/2⟩, none, none⟩
          ⟨some ⟨3/4⟩, none, none⟩).2) :=
  (C10_constant_baseline ⟨⟨some ⟨1/2⟩, none, none⟩,
    some ⟨some ⟨3/4⟩, none, none⟩⟩ ⟨some ⟨3/4⟩, none, none⟩ rfl).1
